import Mathlib

/-!
Verification of KiroGate (FastAPI gateway): a shallow embedding of
`src/kiro_gateway/routes.py` and `src/kiro_gateway/middleware.py` in Lean 4,
with theorems settling the specification claims about authentication,
model listing, metrics and request-tracking middleware, health reporting,
and rate limiting.

Python values that can be absent (`None`) are modelled as `Option`;
Python truthiness of strings (empty string and `None` are falsy) is made
explicit via `truthyStr`.  Raised exceptions are modelled with `Except`.
External collaborators whose code is not part of the embedded sources
(the model cache, the auth manager, the request orchestrator) appear as
parameters, or as definitions marked `Modelled from the spec:`.
-/

namespace KiroGateway

/-- Python truthiness of an optional string: `None` and `""` are falsy. -/
def truthyStr : Option String → Bool
  | none => false
  | some s => s ≠ ""

/-- An HTTP error raised via `HTTPException(status_code, detail)`. -/
structure HTTPError where
  status : Nat
  detail : String
deriving Repr, DecidableEq

/-- A Python exception as observed by middleware: its type name and message. -/
structure PyException where
  typeName : String
  msg : String
deriving Repr, DecidableEq

/-! ## API-key verification (`routes.py`, `verify_api_key` and
`verify_anthropic_api_key`)

`api_key_header = APIKeyHeader(name="Authorization", auto_error=False)`
yields `None` when the header is absent.  `secrets.compare_digest` is
constant-time string equality; the timing aspect is immaterial to the
functional result and it is embedded as equality. -/

/-- `verify_api_key` from routes.py:
rejects with 401 unless the Authorization header is truthy and equals
`"Bearer " ++ PROXY_API_KEY`. -/
def verify_api_key (proxyKey : String) (authHeader : Option String) :
    Except HTTPError Bool :=
  if truthyStr authHeader && (authHeader.getD "" == "Bearer " ++ proxyKey) then
    Except.ok true
  else
    Except.error ⟨401, "Invalid or missing API Key"⟩

/-- `verify_anthropic_api_key` from routes.py:
accepts a truthy `x-api-key` equal to the proxy key, or a truthy
Authorization header equal to `"Bearer " ++ PROXY_API_KEY`; otherwise 401. -/
def verify_anthropic_api_key (proxyKey : String)
    (xApiKey authHeader : Option String) : Except HTTPError Bool :=
  if truthyStr xApiKey && (xApiKey.getD "" == proxyKey) then
    Except.ok true
  else if truthyStr authHeader && (authHeader.getD "" == "Bearer " ++ proxyKey) then
    Except.ok true
  else
    Except.error ⟨401, "Invalid or missing API Key"⟩

/-- FastAPI dependency wiring (`dependencies=[Depends(...)]`): the
dependency runs first; when it raises, the handler body never runs and the
error is the response. -/
def withDependency {α β : Type} (dep : Except HTTPError Bool)
    (handler : α → β) (a : α) : Except HTTPError β :=
  match dep with
  | Except.error e => Except.error e
  | Except.ok _ => Except.ok (handler a)

/-! ## Model listing (`routes.py`, `get_models`) -/

/-- An entry of the model list (`OpenAIModel` pydantic model). -/
structure OpenAIModel where
  id : String
  owned_by : String
  description : String
deriving Repr, DecidableEq

/-- The `ModelList` response shape. -/
structure ModelList where
  data : List OpenAIModel
deriving Repr, DecidableEq

/-- Outcome of `asyncio.create_task(model_cache.refresh())`: either the
task is spawned (fire-and-forget, never awaited in the handler) or the
spawn itself raises, which the handler catches and logs as a warning. -/
inductive SpawnOutcome where
  | spawned
  | spawnFailed (msg : String)
deriving Repr, DecidableEq

/-- Whether the spawn succeeded. -/
def SpawnOutcome.ok : SpawnOutcome → Bool
  | SpawnOutcome.spawned => true
  | SpawnOutcome.spawnFailed _ => false

/-- The cache state as observed by the handler through the non-blocking
reads `is_empty()` and `is_stale()` (cache internals are external to the
embedded sources, observed only through these two booleans). -/
structure ModelCacheView where
  isEmpty : Bool
  isStale : Bool
deriving Repr, DecidableEq

/-- Modelled from the spec: `ModelInfoCache.is_stale` (cache.py is not
under src/); staleness is `now - lastRefreshedAt > ttl`. -/
def cache_is_stale (now lastRefreshedAt ttl : Nat) : Bool :=
  now - lastRefreshedAt > ttl

/-- What `get_models` did: whether a background refresh task was started,
whether a spawn failure was logged, and the response returned. -/
structure GetModelsResult where
  refreshTriggered : Bool
  warnedSpawnFailure : Bool
  response : ModelList
deriving Repr, DecidableEq

/-- The static model list built by `get_models` from `AVAILABLE_MODELS`
(config.py is external; the list is a parameter). -/
def staticModelList (availableModels : List String) : ModelList :=
  ⟨availableModels.map fun mid =>
    ⟨mid, "anthropic", "Claude model via Kiro API"⟩⟩

/-- `get_models` from routes.py: if the cache is empty or stale, spawn a
background refresh (errors from the spawn are caught and logged); in every
case return the static model list in the same call, without awaiting the
refresh (the refresh task never appears in the returned value). -/
def get_models (availableModels : List String) (cache : ModelCacheView)
    (spawn : SpawnOutcome) : GetModelsResult :=
  let trig : Bool × Bool :=
    if cache.isEmpty || cache.isStale then
      match spawn with
      | SpawnOutcome.spawned => (true, false)
      | SpawnOutcome.spawnFailed _ => (false, true)
    else (false, false)
  { refreshTriggered := trig.1
    warnedSpawnFailure := trig.2
    response := staticModelList availableModels }

/-! ## Metrics middleware (`middleware.py`, `MetricsMiddleware.dispatch`) -/

/-- A response as seen by the middleware: its status code and the
`request.state.model` attribute the handler may have set (`none` when
`hasattr(request.state, "model")` is false). -/
structure HandlerResponse where
  status : Nat
  stateModel : Option String
deriving Repr, DecidableEq

/-- The metrics sink state: request counters keyed by
(endpoint, status, model), latency observations per endpoint, error
counters keyed by exception type name, and the active-connections gauge.
Each emission appends the event, so multiplicity is observable. -/
structure MetricsState where
  requests : List (String × Nat × String)
  latencies : List (String × Nat)
  errors : List String
  activeConnections : Int
deriving Repr, DecidableEq

/-- `MetricsMiddleware.dispatch` from middleware.py.  `endpoint` is
`request.url.path`, `elapsed` the measured processing time, `handler`
the outcome of `await call_next(request)`.  The gauge is incremented
before the handler and decremented in the `finally` block; on success one
request count (endpoint, status, model) and one latency are recorded; on
exception one request count with status 500 and model "unknown", one error
count by exception type name and one latency are recorded, and the
exception is re-raised. -/
def MetricsMiddleware.dispatch (endpoint : String) (elapsed : Nat)
    (handler : Except PyException HandlerResponse) (m : MetricsState) :
    Except PyException HandlerResponse × MetricsState :=
  let m1 := { m with activeConnections := m.activeConnections + 1 }
  match handler with
  | Except.ok resp =>
    let model := resp.stateModel.getD "unknown"
    let m2 := { m1 with
      requests := m1.requests ++ [(endpoint, resp.status, model)]
      latencies := m1.latencies ++ [(endpoint, elapsed)] }
    (Except.ok resp, { m2 with activeConnections := m2.activeConnections - 1 })
  | Except.error e =>
    let m2 := { m1 with
      requests := m1.requests ++ [(endpoint, 500, "unknown")]
      errors := m1.errors ++ [e.typeName]
      latencies := m1.latencies ++ [(endpoint, elapsed)] }
    (Except.error e, { m2 with activeConnections := m2.activeConnections - 1 })

/-! ## Request-tracking middleware (`middleware.py`,
`RequestTrackingMiddleware.dispatch`) -/

/-- A log record: the request id bound in the loguru context when it was
emitted, the level, and the message. -/
structure LogRecord where
  boundRequestId : String
  level : String
  message : String
deriving Repr, DecidableEq

/-- A response whose headers the tracking middleware can extend. -/
structure TrackedResponse where
  status : Nat
  headers : List (String × String)
deriving Repr, DecidableEq

/-- `response.headers[k] = v`: replace the value under `k`, or append. -/
def setHeader (hs : List (String × String)) (k v : String) :
    List (String × String) :=
  if hs.any (fun p => p.1 == k) then
    hs.map fun p => if p.1 == k then (k, v) else p
  else hs ++ [(k, v)]

/-- Header lookup: the first entry under key `k`. -/
def getHeader (hs : List (String × String)) (k : String) : Option String :=
  (hs.find? fun p => p.1 == k).map Prod.snd

/-- Correlation-id resolution in `RequestTrackingMiddleware.dispatch`:
use the `X-Request-ID` header when it is present and non-empty, otherwise
a fresh `uuid.uuid4()` value (passed in as `freshUuid`). -/
def resolveRequestId (headerRequestId : Option String) (freshUuid : String) :
    String :=
  if truthyStr headerRequestId then headerRequestId.getD "" else freshUuid

/-- `RequestTrackingMiddleware.dispatch` from middleware.py.
The measured elapsed time `time.time() - start_time` is rendered twice by
the Python code, with different formattings: `processTimeStr` stands for
`str(round(process_time, 4))` written to the `X-Process-Time` header, and
`processTimeLogStr` for the `f"{process_time:.4f}"` rendering that both
final log messages append as ` time=...s`.  Inside
`logger.contextualize(request_id=...)` a start record (with the query
string) is emitted; on normal return the `X-Request-ID` and
`X-Process-Time` headers are set and a completion record with the status
and the elapsed time emitted; on exception an error record carrying the
exception message and the elapsed time is emitted and the exception
re-raised. -/
def RequestTrackingMiddleware.dispatch (headerRequestId : Option String)
    (freshUuid : String)
    (method path query processTimeStr processTimeLogStr : String)
    (handler : Except PyException TrackedResponse) :
    Except PyException TrackedResponse × List LogRecord :=
  let rid := resolveRequestId headerRequestId freshUuid
  let startLog : LogRecord :=
    ⟨rid, "info", "Request started: " ++ method ++ " " ++ path
      ++ " (query: " ++ query ++ ")"⟩
  match handler with
  | Except.ok response =>
    let response := { response with
      headers := setHeader
        (setHeader response.headers "X-Request-ID" rid)
        "X-Process-Time" processTimeStr }
    (Except.ok response,
      [startLog,
       ⟨rid, "info", "Request completed: " ++ method ++ " " ++ path
         ++ " status=" ++ toString response.status
         ++ " time=" ++ processTimeLogStr ++ "s"⟩])
  | Except.error e =>
    (Except.error e,
      [startLog,
       ⟨rid, "error", "Request failed: " ++ method ++ " " ++ path
         ++ " error=" ++ e.msg
         ++ " time=" ++ processTimeLogStr ++ "s"⟩])

/-! ## Health endpoint (`routes.py`, `health`) -/

/-- The auth-manager state read by the health check: the held
`_access_token` (an absent or empty token is falsy). -/
structure AuthManagerState where
  accessToken : Option String
  expiresAt : Nat
  safetyMargin : Nat
deriving Repr, DecidableEq

/-- Modelled from the spec: `KiroAuthManager.is_token_expiring_soon`
(auth.py is not under src/) is a read-only check defined as
`now >= expiresAt - safetyMargin`. -/
def is_token_expiring_soon (a : AuthManagerState) (now : Nat) : Bool :=
  now ≥ a.expiresAt - a.safetyMargin

/-- The `token_valid` computation in `health`: `False` unless the held
token is truthy and the expiry check returns false; any exception raised
during the check yields `False` (the truthiness test short-circuits, so a
falsy token never reaches the check). -/
def health_token_valid (accessToken : Option String)
    (expiryCheck : Except PyException Bool) : Bool :=
  if truthyStr accessToken then
    match expiryCheck with
    | Except.ok expiringSoon => !expiringSoon
    | Except.error _ => false
  else false

/-- `health` from routes.py, restricted to its interaction with the auth
manager: it evaluates `token_valid` from the held token and the
`is_token_expiring_soon()` call (whose raising is modelled by
`checkRaises`), and returns the auth-manager state unchanged — the
handler only reads it. -/
def health (a : AuthManagerState) (now : Nat)
    (checkRaises : Option PyException) : Bool × AuthManagerState :=
  let expiryCheck : Except PyException Bool :=
    match checkRaises with
    | some e => Except.error e
    | none => Except.ok (is_token_expiring_soon a now)
  (health_token_valid a.accessToken expiryCheck, a)

/-! ## Rate limiting (`routes.py`, `rate_limit_decorator` and
`rate_limit_handler`) -/

/-- The decorator produced by `rate_limit_decorator`: either the
slowapi per-minute limiter (an admission gate keyed by the client remote
address, black box here) or the identity `lambda func: func`. -/
inductive RateDecorator where
  | identity
  | limited (perMinute : Nat)
deriving Repr, DecidableEq

/-- The decorator built on first call: the per-minute limiter when
`RATE_LIMIT_PER_MINUTE > 0`, otherwise the identity. -/
def mkRateDecorator (ratePerMinute : Nat) : RateDecorator :=
  if ratePerMinute > 0 then RateDecorator.limited ratePerMinute
  else RateDecorator.identity

/-- `rate_limit_decorator` from routes.py: returns the module-level cached
decorator, creating it on first call; returns the decorator together with
the updated `_rate_limit_decorator_cache`. -/
def rate_limit_decorator (ratePerMinute : Nat)
    (cache : Option RateDecorator) : RateDecorator × Option RateDecorator :=
  match cache with
  | some d => (d, some d)
  | none =>
    let d := mkRateDecorator ratePerMinute
    (d, some d)

/-- The decorators attached to `/v1/models`, `/v1/chat/completions` and
`/v1/messages` at module import: three successive calls of
`rate_limit_decorator()` threading the cache, which starts empty. -/
def endpointDecorators (ratePerMinute : Nat) :
    RateDecorator × RateDecorator × RateDecorator :=
  let r1 := rate_limit_decorator ratePerMinute none
  let r2 := rate_limit_decorator ratePerMinute r1.2
  let r3 := rate_limit_decorator ratePerMinute r2.2
  (r1.1, r2.1, r3.1)

/-- The structured JSON error body returned by `rate_limit_handler`. -/
structure RateLimitErrorBody where
  message : String
  errorType : String
  code : Nat
deriving Repr, DecidableEq

/-- A decorated handler call: the identity decorator always runs the
handler; the limiter consults the admission gate with the client remote
address and the configured per-minute limit, runs the handler when
admitted, and raises `RateLimitExceeded` otherwise. -/
def applyDecorator {α : Type} (d : RateDecorator) (gate : String → Nat → Bool)
    (remoteAddr : String) (handler : α) : Option α :=
  match d with
  | RateDecorator.identity => some handler
  | RateDecorator.limited perMinute =>
    if gate remoteAddr perMinute then some handler else none

/-- `rate_limit_handler` from routes.py: the `RateLimitExceeded` exception
handler returns status 429 with a structured JSON error body. -/
def rate_limit_handler : Nat × RateLimitErrorBody :=
  (429, ⟨"Rate limit exceeded. Please try again later.",
         "rate_limit_exceeded", 429⟩)

/-! ## Chat-completion handlers (`routes.py`, `chat_completions` and
`anthropic_messages`) -/

/-- Application state as the handlers see it: `app.state.model_cache`
plus everything else (auth manager, orchestrator internals), kept
abstract as type parameters. -/
structure AppState (Cache Core : Type) where
  model_cache : Cache
  core : Core

/-- `chat_completions` from routes.py: the body logs and delegates to
`RequestHandler.process_request(request, request_data,
"/v1/chat/completions", convert_to_openai=False, response_format="openai")`.
Modelled from the spec: `RequestHandler.process_request`
(request_handler.py is not under src/) is the request orchestrator, which
per the spec consults TokenSession and the codecs but never
ModelCatalogCache ("ModelCatalogCache is consulted only by the
model-listing path ... never inline with a chat request"); it is therefore
a function of the non-cache state only, here the `processRequest`
parameter. -/
def chat_completions {Cache Core Req Resp : Type}
    (processRequest : Core → Req → Resp × Core)
    (st : AppState Cache Core) (requestData : Req) :
    Resp × AppState Cache Core :=
  let r := processRequest st.core requestData
  (r.1, { st with core := r.2 })

/-- `anthropic_messages` from routes.py: identical shape to
`chat_completions` but delegating with `convert_to_openai=True,
response_format="anthropic"`.  Modelled from the spec in the same way:
the orchestrator never touches the model cache. -/
def anthropic_messages {Cache Core Req Resp : Type}
    (processRequest : Core → Req → Resp × Core)
    (st : AppState Cache Core) (requestData : Req) :
    Resp × AppState Cache Core :=
  let r := processRequest st.core requestData
  (r.1, { st with core := r.2 })

/-! ## Helper lemmas -/

/-- A Bearer-prefixed credential string is never empty. -/
lemma bearer_ne_empty (s : String) : "Bearer " ++ s ≠ "" := by
  intro h
  have h2 := congrArg String.length h
  simp [String.length_append] at h2
  exact absurd h2.1 (by decide)

/-- Characterization of `verify_api_key` success. -/
lemma verify_api_key_ok_iff (proxyKey : String) (authHeader : Option String) :
    verify_api_key proxyKey authHeader = Except.ok true ↔
      authHeader = some ("Bearer " ++ proxyKey) := by
  cases authHeader with
  | none => simp [verify_api_key, truthyStr]
  | some s =>
    by_cases h : s = "Bearer " ++ proxyKey
    · subst h
      simp [verify_api_key, truthyStr, bearer_ne_empty]
    · simp [verify_api_key, truthyStr, h]

/-- Characterization of `verify_anthropic_api_key` success, for a
non-empty configured key. -/
lemma verify_anthropic_api_key_ok_iff (proxyKey : String)
    (hk : proxyKey ≠ "") (xApiKey authHeader : Option String) :
    verify_anthropic_api_key proxyKey xApiKey authHeader = Except.ok true ↔
      (xApiKey = some proxyKey ∨ authHeader = some ("Bearer " ++ proxyKey)) := by
  cases xApiKey with
  | none =>
    cases authHeader with
    | none => simp [verify_anthropic_api_key, truthyStr]
    | some s =>
      by_cases h : s = "Bearer " ++ proxyKey
      · subst h
        simp [verify_anthropic_api_key, truthyStr, bearer_ne_empty]
      · simp [verify_anthropic_api_key, truthyStr, h]
  | some x =>
    by_cases hx : x = proxyKey
    · subst hx
      simp [verify_anthropic_api_key, truthyStr, hk]
    · cases authHeader with
      | none => simp [verify_anthropic_api_key, truthyStr, hx]
      | some s =>
        by_cases h : s = "Bearer " ++ proxyKey
        · subst h
          simp [verify_anthropic_api_key, truthyStr, hx, bearer_ne_empty]
        · simp [verify_anthropic_api_key, truthyStr, hx, h]

/-- Every rejection by `verify_api_key` carries status 401. -/
lemma verify_api_key_error_401 (proxyKey : String) (authHeader : Option String)
    (e : HTTPError) (h : verify_api_key proxyKey authHeader = Except.error e) :
    e.status = 401 := by
  unfold verify_api_key at h
  split at h
  · exact absurd h (by simp)
  · cases h
    rfl

/-- Every rejection by `verify_anthropic_api_key` carries status 401. -/
lemma verify_anthropic_api_key_error_401 (proxyKey : String)
    (xApiKey authHeader : Option String) (e : HTTPError)
    (h : verify_anthropic_api_key proxyKey xApiKey authHeader = Except.error e) :
    e.status = 401 := by
  unfold verify_anthropic_api_key at h
  split at h
  · exact absurd h (by simp)
  · split at h
    · exact absurd h (by simp)
    · cases h
      rfl

/-! ## Claim theorems -/

/-- C2: a request to the OpenAI-style endpoints is admitted iff its
Authorization header equals `"Bearer "` followed by the configured proxy
API key; a request to the Anthropic-style endpoint is admitted iff its
x-api-key header equals the proxy key or its Authorization header equals
`"Bearer "` plus the proxy key; every other request is rejected with HTTP
401, and on rejection the dependency wiring never runs the handler body
(the outcome is independent of the handler). -/
theorem claim_C2_auth_admission (proxyKey : String) (hk : proxyKey ≠ "")
    (xApiKey authHeader : Option String) :
    (verify_api_key proxyKey authHeader = Except.ok true ↔
      authHeader = some ("Bearer " ++ proxyKey))
    ∧ (verify_anthropic_api_key proxyKey xApiKey authHeader = Except.ok true ↔
      (xApiKey = some proxyKey ∨ authHeader = some ("Bearer " ++ proxyKey)))
    ∧ (∀ e, verify_api_key proxyKey authHeader = Except.error e →
        e.status = 401)
    ∧ (∀ e, verify_anthropic_api_key proxyKey xApiKey authHeader =
        Except.error e → e.status = 401)
    ∧ (∀ (α β : Type) (h1 h2 : α → β) (a1 a2 : α) (e : HTTPError),
        verify_api_key proxyKey authHeader = Except.error e →
        withDependency (verify_api_key proxyKey authHeader) h1 a1 =
          withDependency (verify_api_key proxyKey authHeader) h2 a2) := by
  refine ⟨verify_api_key_ok_iff proxyKey authHeader,
    verify_anthropic_api_key_ok_iff proxyKey hk xApiKey authHeader,
    fun e h => verify_api_key_error_401 proxyKey authHeader e h,
    fun e h => verify_anthropic_api_key_error_401 proxyKey xApiKey authHeader e h,
    fun α β h1 h2 a1 a2 e he => ?_⟩
  simp [withDependency, he]

/-- Witness for C2 at a concrete configuration: proxy key "sk", the
Anthropic endpoint admits a request carrying only x-api-key "sk". -/
theorem claim_C2_auth_admission_witness :
    ("sk" : String) ≠ "" ∧
    verify_anthropic_api_key "sk" (some "sk") none = Except.ok true :=
  ⟨by decide,
    (claim_C2_auth_admission "sk" (by decide) (some "sk") none).2.1.mpr
      (Or.inl rfl)⟩

/-- C1: on every call of `get_models`, a background refresh is started
exactly when the cache is empty or stale and the spawn succeeds; whether
the cache is empty, stale, fresh, or the spawn fails (which is only
logged), the handler returns the static model list in the same call, the
returned value never depending on the cache state or on the refresh task;
and the stale scenario (last refresh at T, TTL 300, now T+301) is indeed
stale. -/
theorem claim_C1_models_refresh_nonblocking (availableModels : List String)
    (cache : ModelCacheView) (spawn : SpawnOutcome) :
    ((get_models availableModels cache spawn).refreshTriggered =
      ((cache.isEmpty || cache.isStale) && spawn.ok))
    ∧ ((get_models availableModels cache spawn).warnedSpawnFailure =
      ((cache.isEmpty || cache.isStale) && !spawn.ok))
    ∧ (get_models availableModels cache spawn).response =
      staticModelList availableModels
    ∧ (∀ (cache2 : ModelCacheView) (spawn2 : SpawnOutcome),
        (get_models availableModels cache2 spawn2).response =
        (get_models availableModels cache spawn).response)
    ∧ (∀ t : Nat, cache_is_stale (t + 301) t 300 = true) := by
  refine ⟨?_, ?_, rfl, fun cache2 spawn2 => rfl, fun t => ?_⟩
  · rcases cache with ⟨e, s⟩
    cases e <;> cases s <;> cases spawn <;>
      simp [get_models, SpawnOutcome.ok]
  · rcases cache with ⟨e, s⟩
    cases e <;> cases s <;> cases spawn <;>
      simp [get_models, SpawnOutcome.ok]
  · simp only [cache_is_stale, decide_eq_true_eq]
    omega

/-- C5: the `/v1/models` response contains exactly one entry per
identifier in the static `AVAILABLE_MODELS` list, each owned by
"anthropic", and the response is independent of the cache state and of
the spawn outcome. -/
theorem claim_C5_models_static_content (availableModels : List String)
    (cache : ModelCacheView) (spawn : SpawnOutcome) :
    ((get_models availableModels cache spawn).response.data.map OpenAIModel.id
      = availableModels)
    ∧ ((get_models availableModels cache spawn).response.data.map
        OpenAIModel.owned_by = availableModels.map fun _ => "anthropic")
    ∧ ((get_models availableModels cache spawn).response.data.length =
      availableModels.length)
    ∧ (∀ (cache2 : ModelCacheView) (spawn2 : SpawnOutcome),
        (get_models availableModels cache2 spawn2).response =
        (get_models availableModels cache spawn).response) := by
  refine ⟨?_, ?_, ?_, fun cache2 spawn2 => rfl⟩ <;>
    simp [get_models, staticModelList, List.map_map, Function.comp_def]

/-- C3: the metrics middleware records exactly one request count and one
latency observation on every path; on success the count is keyed by the
endpoint, the response status and the model from request state; on
exception the count is keyed with status 500 and model "unknown", an error
counter keyed by the exception type name is incremented, and the exception
is re-raised unchanged. -/
theorem claim_C3_metrics_exactly_once (endpoint : String) (elapsed : Nat)
    (handler : Except PyException HandlerResponse) (m : MetricsState) :
    ((MetricsMiddleware.dispatch endpoint elapsed handler m).2.requests.length
      = m.requests.length + 1)
    ∧ ((MetricsMiddleware.dispatch endpoint elapsed handler m).2.latencies =
      m.latencies ++ [(endpoint, elapsed)])
    ∧ (∀ resp, handler = Except.ok resp →
        (MetricsMiddleware.dispatch endpoint elapsed handler m).2.requests =
          m.requests ++ [(endpoint, resp.status, resp.stateModel.getD "unknown")]
        ∧ (MetricsMiddleware.dispatch endpoint elapsed handler m).2.errors =
          m.errors
        ∧ (MetricsMiddleware.dispatch endpoint elapsed handler m).1 =
          Except.ok resp)
    ∧ (∀ e, handler = Except.error e →
        (MetricsMiddleware.dispatch endpoint elapsed handler m).2.requests =
          m.requests ++ [(endpoint, 500, "unknown")]
        ∧ (MetricsMiddleware.dispatch endpoint elapsed handler m).2.errors =
          m.errors ++ [e.typeName]
        ∧ (MetricsMiddleware.dispatch endpoint elapsed handler m).1 =
          Except.error e) := by
  cases handler with
  | ok resp => simp [MetricsMiddleware.dispatch]
  | error e => simp [MetricsMiddleware.dispatch]

/-- Witness for C3 at a concrete exception: a ValueError raised by the
handler is counted as status 500 and by its type name. -/
theorem claim_C3_metrics_exactly_once_witness :
    (MetricsMiddleware.dispatch "/v1/messages" 5
      (Except.error ⟨"ValueError", "boom"⟩) ⟨[], [], [], 0⟩).2.errors =
      [] ++ ["ValueError"] ∧
    (MetricsMiddleware.dispatch "/v1/messages" 5
      (Except.error ⟨"ValueError", "boom"⟩) ⟨[], [], [], 0⟩).2.requests =
      [] ++ [("/v1/messages", 500, "unknown")] :=
  let h := (claim_C3_metrics_exactly_once "/v1/messages" 5
    (Except.error ⟨"ValueError", "boom"⟩) ⟨[], [], [], 0⟩).2.2.2
    ⟨"ValueError", "boom"⟩ rfl
  ⟨h.2.1, h.1⟩

/-- C10: the active-connections gauge is balanced on every request:
after the metrics middleware completes — whether the handler returned or
raised — the gauge equals its value before the request entered. -/
theorem claim_C10_gauge_balanced (endpoint : String) (elapsed : Nat)
    (handler : Except PyException HandlerResponse) (m : MetricsState) :
    (MetricsMiddleware.dispatch endpoint elapsed handler m).2.activeConnections
      = m.activeConnections := by
  cases handler <;> simp [MetricsMiddleware.dispatch]

/-- Replacing the entries under `k` makes the first `k`-entry `(k, v)`,
provided some entry under `k` exists. -/
lemma find?_map_replace (hs : List (String × String)) (k v : String) :
    ((hs.map fun p => if p.1 == k then (k, v) else p).find? fun p => p.1 == k)
      = if hs.any (fun p => p.1 == k) then some (k, v) else none := by
  induction hs with
  | nil => simp
  | cons a t ih =>
    by_cases ha : a.1 = k
    · have hfa : (if (a.1 == k) = true then (k, v) else a) = (k, v) := by
        simp [ha]
      rw [List.map_cons, hfa, List.find?_cons_of_pos _ (by simp)]
      simp [List.any_cons, ha]
    · have hfa : (if (a.1 == k) = true then (k, v) else a) = a := by
        simp [ha]
      rw [List.map_cons, hfa, List.find?_cons_of_neg _ (by simp [ha]), ih]
      have hb : (a.1 == k) = false := beq_eq_false_iff_ne.mpr ha
      rw [List.any_cons, hb, Bool.false_or]

/-- Appending a single `k`-entry to a list with no `k`-entry makes it the
first `k`-entry found. -/
lemma find?_append_single (hs : List (String × String)) (k v : String)
    (h : hs.any (fun p => p.1 == k) = false) :
    ((hs ++ [(k, v)]).find? fun p => p.1 == k) = some (k, v) := by
  have h0 : hs.find? (fun p => p.1 == k) = none := by
    rw [List.find?_eq_none]
    intro x hx
    have := List.any_eq_false.mp h x hx
    simpa using this
  rw [List.find?_append, h0]
  simp

/-- Setting a header then reading it back yields the written value. -/
lemma getHeader_setHeader_same (hs : List (String × String)) (k v : String) :
    getHeader (setHeader hs k v) k = some v := by
  unfold setHeader getHeader
  split
  · rename_i hany
    rw [find?_map_replace]
    simp [hany]
  · rename_i hany
    have hfalse : hs.any (fun p => p.1 == k) = false := by
      cases h2 : hs.any (fun p => p.1 == k)
      · rfl
      · exact absurd h2 hany
    rw [find?_append_single hs k v hfalse]
    rfl

/-- Replacing the entries under a different key leaves a lookup
untouched. -/
lemma find?_map_replace_other (hs : List (String × String)) (k k2 v : String)
    (hne : k ≠ k2) :
    ((hs.map fun p => if p.1 == k2 then (k2, v) else p).find?
      fun p => p.1 == k) = hs.find? fun p => p.1 == k := by
  have hk2 : ((k2, v).1 == k) = false := by
    simp
    exact fun h => hne h.symm
  induction hs with
  | nil => simp
  | cons a t ih =>
    by_cases ha : a.1 = k2
    · have hfa : (if (a.1 == k2) = true then (k2, v) else a) = (k2, v) := by
        simp [ha]
      have hak : (a.1 == k) = false := by
        simp [ha]
        exact fun h => hne h.symm
      rw [List.map_cons, hfa,
        List.find?_cons_of_neg _ (by simpa using hk2),
        List.find?_cons_of_neg _ (by simpa using hak), ih]
    · have hfa : (if (a.1 == k2) = true then (k2, v) else a) = a := by
        simp [ha]
      rw [List.map_cons, hfa]
      by_cases hak : a.1 = k
      · rw [List.find?_cons_of_pos _ (by simp [hak]),
          List.find?_cons_of_pos _ (by simp [hak])]
      · rw [List.find?_cons_of_neg _ (by simp [hak]),
          List.find?_cons_of_neg _ (by simp [hak]), ih]

/-- Appending an entry under a different key leaves a lookup untouched. -/
lemma find?_append_single_other (hs : List (String × String))
    (k k2 v : String) (hne : k ≠ k2) :
    ((hs ++ [(k2, v)]).find? fun p => p.1 == k) =
      hs.find? fun p => p.1 == k := by
  have h1 : ([(k2, v)].find? fun p => p.1 == k) = none := by
    rw [List.find?_eq_none]
    intro x hx
    simp at hx
    subst hx
    simp
    exact fun h => hne h.symm
  rw [List.find?_append, h1, Option.or_none]

/-- Setting a header under a different key does not change a lookup. -/
lemma getHeader_setHeader_other (hs : List (String × String))
    (k k2 v : String) (hne : k ≠ k2) :
    getHeader (setHeader hs k2 v) k = getHeader hs k := by
  unfold setHeader getHeader
  split
  · rw [find?_map_replace_other hs k k2 v hne]
  · rw [find?_append_single_other hs k k2 v hne]

/-- C6: the tracking middleware binds the correlation id to the logging
context before the handler runs, and on every exit path the emitted log
records carry that id: on success the last record is the completion
record with the response status and the elapsed time, on failure the last
record is the error record with the exception message and the elapsed
time, and the exception is re-raised. -/
theorem claim_C6_every_request_logged (headerRequestId : Option String)
    (freshUuid method path query processTimeStr processTimeLogStr : String)
    (handler : Except PyException TrackedResponse) :
    (∀ rec ∈ (RequestTrackingMiddleware.dispatch headerRequestId freshUuid
        method path query processTimeStr processTimeLogStr handler).2,
      rec.boundRequestId = resolveRequestId headerRequestId freshUuid)
    ∧ (RequestTrackingMiddleware.dispatch headerRequestId freshUuid
        method path query processTimeStr processTimeLogStr handler).2 ≠ []
    ∧ (∀ resp, handler = Except.ok resp →
        (RequestTrackingMiddleware.dispatch headerRequestId freshUuid
          method path query processTimeStr processTimeLogStr
          handler).2.getLast? =
        some ⟨resolveRequestId headerRequestId freshUuid, "info",
          "Request completed: " ++ method ++ " " ++ path ++ " status=" ++
            toString resp.status ++ " time=" ++ processTimeLogStr ++ "s"⟩)
    ∧ (∀ e, handler = Except.error e →
        (RequestTrackingMiddleware.dispatch headerRequestId freshUuid
          method path query processTimeStr processTimeLogStr
          handler).2.getLast? =
        some ⟨resolveRequestId headerRequestId freshUuid, "error",
          "Request failed: " ++ method ++ " " ++ path ++ " error=" ++ e.msg
            ++ " time=" ++ processTimeLogStr ++ "s"⟩
        ∧ (RequestTrackingMiddleware.dispatch headerRequestId freshUuid
            method path query processTimeStr processTimeLogStr handler).1 =
          Except.error e) := by
  cases handler with
  | ok resp => simp [RequestTrackingMiddleware.dispatch, List.getLast?]
  | error e => simp [RequestTrackingMiddleware.dispatch, List.getLast?]

/-- Witness for C6 at a concrete failing request: the error record is
emitted under the correlation id taken from the header and carries the
exception message and the elapsed time. -/
theorem claim_C6_every_request_logged_witness :
    (RequestTrackingMiddleware.dispatch (some "abc") "u" "POST"
      "/v1/messages" "" "0.1" "0.1000"
      (Except.error ⟨"ValueError", "boom"⟩)).2.getLast?
    = some ⟨resolveRequestId (some "abc") "u", "error",
        "Request failed: " ++ "POST" ++ " " ++ "/v1/messages" ++
          " error=" ++ "boom" ++ " time=" ++ "0.1000" ++ "s"⟩ :=
  ((claim_C6_every_request_logged (some "abc") "u" "POST" "/v1/messages"
    "" "0.1" "0.1000" (Except.error ⟨"ValueError", "boom"⟩)).2.2.2
    ⟨"ValueError", "boom"⟩ rfl).1

/-- C9: a non-empty `X-Request-ID` header is used verbatim as the
correlation id (so two runs with the same supplied header agree), an
absent or empty header falls back to a fresh UUID, and on a successful
response the id is echoed back in `X-Request-ID` together with
`X-Process-Time`. -/
theorem claim_C9_request_id_echo (headerRequestId : Option String)
    (freshUuid method path query processTimeStr processTimeLogStr : String)
    (handler : Except PyException TrackedResponse) :
    (∀ s : String, s ≠ "" → resolveRequestId (some s) freshUuid = s)
    ∧ resolveRequestId none freshUuid = freshUuid
    ∧ resolveRequestId (some "") freshUuid = freshUuid
    ∧ (∀ s u1 u2 : String, s ≠ "" →
        resolveRequestId (some s) u1 = resolveRequestId (some s) u2)
    ∧ (∀ resp, handler = Except.ok resp →
        ∃ resp2, (RequestTrackingMiddleware.dispatch headerRequestId
            freshUuid method path query processTimeStr processTimeLogStr
            handler).1 = Except.ok resp2
          ∧ getHeader resp2.headers "X-Request-ID" =
              some (resolveRequestId headerRequestId freshUuid)
          ∧ getHeader resp2.headers "X-Process-Time" = some processTimeStr
          ∧ resp2.status = resp.status) := by
  refine ⟨fun s hs => by simp [resolveRequestId, truthyStr, hs],
    by simp [resolveRequestId, truthyStr],
    by simp [resolveRequestId, truthyStr],
    fun s u1 u2 hs => by simp [resolveRequestId, truthyStr, hs],
    fun resp h => ?_⟩
  subst h
  refine ⟨_, rfl, ?_, ?_, rfl⟩
  · rw [getHeader_setHeader_other _ _ _ _ (by decide)]
    exact getHeader_setHeader_same _ _ _
  · exact getHeader_setHeader_same _ _ _

/-- Witness for C9 at a concrete request: header "abc" is used as the id
and echoed back with the processing time. -/
theorem claim_C9_request_id_echo_witness :
    resolveRequestId (some "abc") "u" = "abc" ∧
    ∃ resp2, (RequestTrackingMiddleware.dispatch (some "abc") "u" "GET"
        "/v1/models" "" "0.2" "0.2000" (Except.ok ⟨200, []⟩)).1 =
        Except.ok resp2
      ∧ getHeader resp2.headers "X-Request-ID" =
          some (resolveRequestId (some "abc") "u")
      ∧ getHeader resp2.headers "X-Process-Time" = some "0.2"
      ∧ resp2.status = 200 := by
  have h := claim_C9_request_id_echo (some "abc") "u" "GET" "/v1/models"
    "" "0.2" "0.2000" (Except.ok ⟨200, []⟩)
  exact ⟨h.1 "abc" (by decide), h.2.2.2.2 ⟨200, []⟩ rfl⟩

/-- C7: the health endpoint uses the token-expiry check read-only — the
auth-manager state it returns is the state it was given; when the check
does not raise, `token_valid` is true exactly when a (truthy) token is
held and it is not expiring soon; and any exception raised by the check
yields `token_valid = false` instead of failing the response. -/
theorem claim_C7_health_readonly (a : AuthManagerState) (now : Nat)
    (checkRaises : Option PyException) :
    (health a now checkRaises).2 = a
    ∧ ((health a now none).1 =
      (truthyStr a.accessToken && !(is_token_expiring_soon a now)))
    ∧ (∀ e, (health a now (some e)).1 = false) := by
  refine ⟨rfl, ?_, fun e => ?_⟩
  · cases h : truthyStr a.accessToken <;>
      simp [health, health_token_valid, h]
  · cases h : truthyStr a.accessToken <;>
      simp [health, health_token_valid, h]

/-- C8: the three rate-limited endpoints receive the same decorator from
the module-level cache; with a positive per-minute limit it is the
limiter, with limit 0 it is the identity (every call admitted, handler
unchanged); a request the admission gate rejects is not served, and the
`RateLimitExceeded` handler answers 429 with a structured JSON body of
type "rate_limit_exceeded". -/
theorem claim_C8_rate_limit_gate (ratePerMinute : Nat) :
    ((endpointDecorators ratePerMinute).1 =
        (endpointDecorators ratePerMinute).2.1
      ∧ (endpointDecorators ratePerMinute).2.1 =
        (endpointDecorators ratePerMinute).2.2)
    ∧ (0 < ratePerMinute → (endpointDecorators ratePerMinute).1 =
        RateDecorator.limited ratePerMinute)
    ∧ (ratePerMinute = 0 → (endpointDecorators ratePerMinute).1 =
        RateDecorator.identity)
    ∧ (∀ (α : Type) (gate : String → Nat → Bool) (addr : String) (h : α),
        applyDecorator RateDecorator.identity gate addr h = some h)
    ∧ (∀ (α : Type) (gate : String → Nat → Bool) (addr : String) (h : α)
        (pm : Nat), gate addr pm = false →
        applyDecorator (RateDecorator.limited pm) gate addr h = none)
    ∧ rate_limit_handler.1 = 429
    ∧ rate_limit_handler.2.errorType = "rate_limit_exceeded"
    ∧ rate_limit_handler.2.code = 429 := by
  refine ⟨⟨rfl, rfl⟩, fun h => ?_, fun h => ?_,
    fun α gate addr hndl => rfl,
    fun α gate addr hndl pm hg => ?_, rfl, rfl, rfl⟩
  · simp [endpointDecorators, rate_limit_decorator, mkRateDecorator, h]
  · simp [endpointDecorators, rate_limit_decorator, mkRateDecorator, h]
  · simp [applyDecorator, hg]

/-- Witness for C8 at concrete limits: limit 0 yields the identity
decorator on all endpoints, limit 5 yields the limiter, and a gate that
rejects leads to no handler invocation. -/
theorem claim_C8_rate_limit_gate_witness :
    (endpointDecorators 0).1 = RateDecorator.identity ∧
    (endpointDecorators 5).1 = RateDecorator.limited 5 ∧
    applyDecorator (RateDecorator.limited 5) (fun _ _ => false) "1.2.3.4"
      (42 : Nat) = none :=
  ⟨(claim_C8_rate_limit_gate 0).2.2.1 rfl,
    (claim_C8_rate_limit_gate 5).2.1 (by decide),
    (claim_C8_rate_limit_gate 5).2.2.2.2.1 Nat (fun _ _ => false) "1.2.3.4"
      42 5 rfl⟩

/-- C4: the chat-completion handlers never read or modify the model
cache: for every application state and request, the cache component after
`chat_completions` or `anthropic_messages` equals the cache before, and
the response is independent of the cache contents. -/
theorem claim_C4_chat_cache_frame {Cache Core Req Resp : Type}
    (processRequest : Core → Req → Resp × Core)
    (st : AppState Cache Core) (requestData : Req) :
    (chat_completions processRequest st requestData).2.model_cache =
      st.model_cache
    ∧ (anthropic_messages processRequest st requestData).2.model_cache =
      st.model_cache
    ∧ (∀ c2 : Cache,
        (chat_completions processRequest { st with model_cache := c2 }
          requestData).1 =
        (chat_completions processRequest st requestData).1)
    ∧ (∀ c2 : Cache,
        (anthropic_messages processRequest { st with model_cache := c2 }
          requestData).1 =
        (anthropic_messages processRequest st requestData).1) :=
  ⟨rfl, rfl, fun _ => rfl, fun _ => rfl⟩

end KiroGateway
